import Mathlib

/-!
Verification of the demo-gallery single-page application.

The definitions below are a shallow embedding of the interaction logic of
the gallery screens, translated from the JavaScript sources:
  - Home.jsx        : file selection, batch upload, delete, image-list fetch,
                      single-shot AI generation.
  - ImageChat.jsx   : multi-turn chat serialization and send handler.
  - KafkaDemo.jsx   : streaming-demo control panel (status poll, stop).
React state setters are modelled as explicit state passing; network
responses are modelled as explicit parameters; toast notifications are
modelled as values collected in a list.

String primitives of the JavaScript runtime (startsWith, includes, trim)
are modelled by executable recursions over the character list of the
string, with the same meaning as the JavaScript methods.
-/

namespace DemoGallery

/-- Character-list version of string prefix testing: the first list starts
with the second. Executable model of JavaScript String.prototype.startsWith. -/
def charsStartWith : List Char → List Char → Bool
  | _, [] => true
  | [], _ :: _ => false
  | c :: cs, d :: ds => c == d && charsStartWith cs ds

/-- Character-list version of substring containment: some suffix of the
first list starts with the second. Executable model of JavaScript
String.prototype.includes. -/
def charsContain : List Char → List Char → Bool
  | [], needle => charsStartWith [] needle
  | c :: cs, needle => charsStartWith (c :: cs) needle || charsContain cs needle

/-- JavaScript s.startsWith(p). -/
def jsStartsWith (s p : String) : Bool :=
  charsStartWith s.data p.data

/-- JavaScript s.includes(needle). -/
def jsIncludes (s needle : String) : Bool :=
  charsContain s.data needle.data

/-- JavaScript falsiness of s.trim(): true exactly when the string is all
whitespace, i.e. when the prompt guard rejects the send. -/
def jsTrimEmpty (s : String) : Bool :=
  s.data.all Char.isWhitespace

/-- A toast notification, as created by the shared toaster hook: the four
fields passed to toaster.create in the sources. -/
structure Toast where
  title : String
  description : String
  status : String
  duration : Nat
deriving Repr, DecidableEq

/-- A browser File object as far as the gallery logic inspects it:
name, MIME type string and byte size. -/
structure JSFile where
  name : String
  type : String
  size : Nat
deriving Repr, DecidableEq

/-- The pending-upload selection state of the Home screen:
the isSelected flag and the selectedFiles array. -/
structure SelectionState where
  isSelected : Bool
  selectedFiles : List JSFile
deriving Repr, DecidableEq

/-- The image-type test used by handleFileSelection (Home.jsx line 260):
file.type.startsWith applied to the image MIME prefix. -/
def isImageType (t : String) : Bool :=
  jsStartsWith t "image/"

/-- handleFileSelection (Home.jsx lines 234-290). The previous selection
state is an argument because the handler runs against it, but the code
never reads it: every branch replaces the selection wholesale. Returns the
new selection state and the toasts created, in creation order. -/
def handleFileSelection (_prev : SelectionState) (files : List JSFile) :
    SelectionState × List Toast :=
  if files.length = 0 then
    (⟨false, []⟩, [])
  else if files.length > 10 then
    (⟨false, []⟩,
      [⟨"Too Many Files", "Please select up to 10 images at a time.",
        "warning", 4000⟩])
  else
    let invalidFiles := files.filter (fun f => !(isImageType f.type))
    let warnToasts :=
      if invalidFiles.length > 0 then
        [⟨"Invalid File Type",
          toString invalidFiles.length ++
            " file(s) are not images and will be ignored.",
          "warning", 4000⟩]
      else ([] : List Toast)
    let validFiles := files.filter (fun f => isImageType f.type)
    if validFiles.length > 0 then
      (⟨true, validFiles⟩,
        warnToasts ++
          [⟨"Files Selected",
            toString validFiles.length ++ " image(s) ready for upload.",
            "success", 2000⟩])
    else
      (⟨false, []⟩, warnToasts)

/-- An image file used in the concrete selection examples. -/
def pngFile (n : String) : JSFile := ⟨n, "image/png", 1⟩

/-- A non-image file used in the concrete selection examples. -/
def txtFile (n : String) : JSFile := ⟨n, "text/plain", 1⟩

/-- The outcome of one per-file upload request inside onFileUpload: either
the awaited axios response resolved and its data.message string is read, or
the request rejected with an error message (network failure, backend
error status, and so on). -/
inductive UploadResponse where
  | ok (message : String)
  | err (errorMessage : String)
deriving Repr, DecidableEq

/-- The status string onFileUpload records for one response
(Home.jsx lines 338-345): a resolved response whose message contains the
substring questionable is flagged, any other resolved response is a
success, and a rejected request is an error. -/
def respStatus : UploadResponse → String
  | .ok m => if jsIncludes m "questionable" then "questionable" else "success"
  | .err _ => "error"

/-- One entry of the uploadResults array built by onFileUpload:
the file name, the recorded status, and the message carried along for the
flagged and failed cases. -/
structure UploadResult where
  file : String
  status : String
  message : Option String
deriving Repr, DecidableEq

/-- The uploadResults entry pushed for one file and its response
(Home.jsx lines 338-345). -/
def uploadResultFor (f : JSFile) (r : UploadResponse) : UploadResult :=
  ⟨f.name, respStatus r,
    match r with
    | .ok m => if jsIncludes m "questionable" then some m else none
    | .err e => some e⟩

/-- onFileUpload (Home.jsx lines 301-388). The files are uploaded strictly
one at a time, so the batch outcome is a list of responses aligned with the
selected files (extra responses beyond the selection are never consumed).
Returns the toasts created, in creation order, and the selection state
left behind by the finally block. -/
def onFileUpload (sel : SelectionState) (responses : List UploadResponse) :
    List Toast × SelectionState :=
  if sel.selectedFiles.length = 0 then
    ([⟨"Select Images", "Please select one or more images to upload",
       "error", 4000⟩], sel)
  else
    let uploadResults :=
      (sel.selectedFiles.zip responses).map (fun p => uploadResultFor p.1 p.2)
    let successCount := (uploadResults.filter (fun r => r.status == "success")).length
    let errorCount := (uploadResults.filter (fun r => r.status == "error")).length
    let questionableCount :=
      (uploadResults.filter (fun r => r.status == "questionable")).length
    let summaryToasts :=
      if successCount > 0 then
        [⟨"Upload Results",
          toString successCount ++ " successful, " ++ toString errorCount ++
            " failed, " ++ toString questionableCount ++ " flagged",
          if successCount = sel.selectedFiles.length then "success" else "warning",
          6000⟩]
      else ([] : List Toast)
    let flaggedToasts :=
      (uploadResults.filter (fun r => r.status == "questionable")).map
        (fun r => ⟨"Questionable Content - " ++ r.file,
                   r.message.getD "", "error", 5000⟩)
    (summaryToasts ++ flaggedToasts, ⟨false, []⟩)

/-- The pair (refresh-triggered flag, toast status string) produced by a
delete attempt, as far as the claims inspect it. -/
structure DeleteResult where
  refresh : Bool
  toastStatus : String
deriving Repr, DecidableEq

/-- The default axios validateStatus predicate: the promise returned by
delImage resolves exactly on a 2xx response status; any other completed
response rejects and lands in the catch block of onFileDelete. -/
def axiosResolves (status : Nat) : Bool :=
  200 ≤ status && status < 300

/-- onFileDelete (Home.jsx lines 390-468) as a function of the HTTP status
code the delete request completed with: statuses 200, 201 and 204 toggle
the refresh flag and show a success toast; any other resolved (2xx) status
shows a warning toast; a rejected (non-2xx) response reaches the catch
block and shows an error toast. -/
def onFileDelete (status : Nat) : DeleteResult :=
  if axiosResolves status then
    if status = 200 ∨ status = 201 ∨ status = 204 then ⟨true, "success"⟩
    else ⟨false, "warning"⟩
  else ⟨false, "error"⟩

/-- A JavaScript error value as inspected by the getImages catch block:
the optional axios error code and the optional message. -/
structure JSError where
  code : Option String
  message : Option String
deriving Repr, DecidableEq

/-- An image record as rendered by the gallery. -/
structure ImageRecord where
  id : String
  name : String
  url : String
  ai_labels : List String
  ai_text : List String
deriving Repr, DecidableEq

/-- The fixed placeholder list returned by getImages in development mode
when the API is unreachable (Home.jsx lines 175-190). -/
def mockImages : List ImageRecord :=
  [⟨"mock-1", "sample-image-1.jpg", "/qs.png",
    ["demo", "sample", "test"], ["Sample", "Image"]⟩,
   ⟨"mock-2", "sample-image-2.jpg", "/qs.png",
    ["gallery", "example", "mock"], ["Gallery", "Demo"]⟩]

/-- The network-error classification of getImages (Home.jsx lines 168-171):
axios code ERR_NETWORK, ERR_NAME_NOT_RESOLVED or ECONNREFUSED, or a message
containing the substring CORS. -/
def isNetworkError (e : JSError) : Bool :=
  e.code == some "ERR_NETWORK" ||
  e.code == some "ERR_NAME_NOT_RESOLVED" ||
  e.code == some "ECONNREFUSED" ||
  (match e.message with
   | some m => jsIncludes m "CORS"
   | none => false)

/-- The catch block of getImages (Home.jsx lines 165-194) as a function of
the build environment string and the caught error: in the dev environment a
network-class error is answered with the fixed mock list; every other
failure is re-thrown unchanged. -/
def getImagesOnError (environment : String) (e : JSError) :
    Except JSError (List ImageRecord) :=
  if environment == "dev" && isNetworkError e then
    Except.ok mockImages
  else
    Except.error e

/-- JavaScript a || b on an optional string: the fallback b is used when the
string is absent or empty (falsy). -/
def jsOr (o : Option String) (d : String) : String :=
  match o with
  | some s => if s == "" then d else s
  | none => d

/-- A part of a chat turn as held in the ImageChat message state: the fields
the serializer inspects (text, image_base64, mime_type) plus any other
fields the object may carry, which the serializer must drop. -/
structure MsgPart where
  text : Option String
  image_base64 : Option String
  mime_type : Option String
  extra : List (String × String)
deriving Repr, DecidableEq

/-- A chat turn: role plus parts. -/
structure ChatMsg where
  role : String
  parts : List MsgPart
deriving Repr, DecidableEq

/-- A serialized outbound part (ImageChat.jsx lines 63-71): either the
two-field image object or the one-field text object; no other field
survives serialization. -/
inductive WirePart where
  | image (image_base64 : String) (mime_type : Option String)
  | text (text : Option String)
deriving Repr, DecidableEq

/-- A serialized outbound message. -/
structure WireMsg where
  role : String
  parts : List WirePart
deriving Repr, DecidableEq

/-- The JSON body submitted by handleSendMessage (ImageChat.jsx lines
78-82): model, size and the serialized messages. -/
structure WireBody where
  model : String
  size : String
  messages : List WireMsg
deriving Repr, DecidableEq

/-- The per-part serializer of handleSendMessage (ImageChat.jsx lines
63-71): a part with a truthy image_base64 reduces to the image form with
exactly image_base64 and mime_type; any other part reduces to the text
form. -/
def serializePart (p : MsgPart) : WirePart :=
  match p.image_base64 with
  | some b => if b == "" then WirePart.text p.text else WirePart.image b p.mime_type
  | none => WirePart.text p.text

/-- The per-message serializer: role passes through, every part is
serialized. -/
def serializeMessage (m : ChatMsg) : WireMsg :=
  ⟨m.role, m.parts.map serializePart⟩

/-- The component state of ImageChat as far as handleSendMessage touches
it: the message history, the prompt field and the loading flag. -/
structure ChatState where
  messages : List ChatMsg
  prompt : String
  isLoading : Bool
deriving Repr, DecidableEq

/-- The outcome of the fetch issued by handleSendMessage: a rejected fetch,
a completed non-ok response (whose JSON detail field is read), or an ok
response carrying the optional image_base64 and mime_type fields. -/
inductive SendResponse where
  | fetchError (message : String)
  | notOk (status : Nat) (detail : Option String)
  | ok (image_base64 : Option String) (mime_type : Option String)
deriving Repr, DecidableEq

/-- The failure classification for a send: every response except an ok one
with a truthy image_base64 lands in the catch block. -/
def isFailureResponse : SendResponse → Bool
  | .fetchError _ => true
  | .notOk _ _ => true
  | .ok none _ => true
  | .ok (some b) _ => b == ""

/-- The user turn appended by handleSendMessage (ImageChat.jsx line 43). -/
def userTurn (p : String) : ChatMsg :=
  ⟨"user", [⟨some p, none, none, []⟩]⟩

/-- The toast created by the catch block of handleSendMessage
(ImageChat.jsx lines 109-114). -/
def genFailedToast (m : String) : Toast :=
  ⟨"Generation Failed", m, "error", 5000⟩

/-- handleSendMessage (ImageChat.jsx lines 40-119). Returns the component
state after the handler finishes (messages, prompt, isLoading as left by
the setters and the finally block), the toasts created, and the body
submitted to the edit endpoint (none when the blank-prompt guard makes the
handler return without sending). -/
def handleSendMessage (st : ChatState) (model size : String)
    (resp : SendResponse) : ChatState × List Toast × Option WireBody :=
  if jsTrimEmpty st.prompt then (st, [], none)
  else
    let newMessages := st.messages ++ [userTurn st.prompt]
    let body : WireBody := ⟨model, size, newMessages.map serializeMessage⟩
    let failState : ChatState := ⟨newMessages, "", false⟩
    match resp with
    | .fetchError m =>
        (failState,
         [genFailedToast (if m == "" then "Failed to generate image" else m)],
         some body)
    | .notOk status detail =>
        (failState,
         [genFailedToast (jsOr detail ("API Error: " ++ toString status))],
         some body)
    | .ok none _ =>
        (failState, [genFailedToast "No image data received from API"], some body)
    | .ok (some b) mt =>
        if b == "" then
          (failState, [genFailedToast "No image data received from API"], some body)
        else
          (⟨newMessages ++
              [⟨"assistant", [⟨none, some b, some (jsOr mt "image/png"), []⟩]⟩],
            "", false⟩,
           [], some body)

/-- The response handling of handleGenerateAndUpload (Home.jsx lines
523-534) up to the decode step: a non-ok response throws with the detail
field (or a generic status message); an ok response without a truthy
image_base64 throws the no-image-data error; otherwise the base64 payload
and the defaulted MIME type flow on to the upload. A thrown error is what
the surrounding catch block surfaces as the Generation Failed toast. -/
def generateImageResponse (ok : Bool) (status : Nat) (detail : Option String)
    (image_base64 : Option String) (mime_type : Option String) :
    Except String (String × String) :=
  if ok then
    match image_base64 with
    | some b =>
        if b == "" then Except.error "No image data found in response"
        else Except.ok (b, jsOr mime_type "image/png")
    | none => Except.error "No image data found in response"
  else
    Except.error (jsOr detail ("API Error: " ++ toString status))

/-- The concrete chat history of the serialization example: a user text
turn and an assistant image turn that carries extra fields beyond the two
the serializer keeps. -/
def chatHistExample : List ChatMsg :=
  [⟨"user", [⟨some "a city", none, none, []⟩]⟩,
   ⟨"assistant", [⟨some "leftover", some "imageA", some "image/png",
     [("seed", "42")]⟩]⟩]

/-- The fault-injection profile of the Kafka demo panel: the four sliders
of KafkaDemo.jsx lines 29-34. -/
structure FaultConfig where
  latency_ms : Int
  drop_probability : Rat
  duplicate_ratio : Rat
  slow_consumer_ms : Int
deriving Repr, DecidableEq

/-- A status response body of the Kafka demo backend as the panel reads
it. -/
structure StatusData where
  running : Bool
  run_id : Option String
  produced : Nat
  analytics_consumed : Nat
  alerts_consumed : Nat
  fault : FaultConfig
  last_error : Option String
deriving Repr, DecidableEq

/-- The component state of KafkaDemo as far as fetchStatus touches it:
the last status snapshot, the submission-in-flight flag, the locally
edited fault profile, and a counter standing for the lastUpdated
timestamp. -/
structure KafkaState where
  status : Option StatusData
  isLoading : Bool
  faultConfig : FaultConfig
  lastUpdatedCount : Nat
deriving Repr, DecidableEq

/-- The isLoading value the fetchStatus closure reads (KafkaDemo.jsx lines
36-52): fetchStatus is a useCallback with an empty dependency array, so the
closure is created exactly once, at mount, when isLoading still has its
initial value false, and is never recreated; every later poll evaluates
the guard against this frozen value instead of the current state. -/
def fetchStatusClosureIsLoading : Bool := false

/-- fetchStatus (KafkaDemo.jsx lines 36-52) as a state transition on the
poll response: a failed fetch is caught and changes nothing; a successful
response is stored as the status snapshot, bumps lastUpdated, and then runs
the stale-closure guard before syncing the local fault profile. -/
def fetchStatus (s : KafkaState) (resp : Option StatusData) : KafkaState :=
  match resp with
  | none => s
  | some data =>
      let s1 := { s with status := some data,
                         lastUpdatedCount := s.lastUpdatedCount + 1 }
      if fetchStatusClosureIsLoading then s1
      else { s1 with faultConfig := data.fault }

/-- Modelled from the spec: the poll handler as the specification describes
it, where the fault-profile sync is guarded by the CURRENT
submission-in-flight flag, so a response arriving while a submission is in
flight leaves the locally edited fault profile unchanged. Used only to
exhibit the divergence of fetchStatus from this intent. -/
def fetchStatusSpec (s : KafkaState) (resp : Option StatusData) : KafkaState :=
  match resp with
  | none => s
  | some data =>
      let s1 := { s with status := some data,
                         lastUpdatedCount := s.lastUpdatedCount + 1 }
      if s.isLoading then s1
      else { s1 with faultConfig := data.fault }

/-- An observable step of the stop workflow: the HTTP request with its
body, the follow-up status poll, or a toast. -/
inductive DemoEvent where
  | stopRequest (body : Option String)
  | statusPoll
  | toastShown (title : String) (status : String)
deriving Repr, DecidableEq

/-- handleStop (KafkaDemo.jsx lines 99-126) as the ordered trace of its
observable steps, as a function of whether the stop response was ok: the
POST is sent with no body; on ok the handler awaits an immediate
fetchStatus before creating the success toast; on a non-ok response the
thrown error is caught and surfaced as an error toast. -/
def handleStop (respOk : Bool) : List DemoEvent :=
  DemoEvent.stopRequest none ::
    (if respOk then
      [DemoEvent.statusPoll, DemoEvent.toastShown "Demo Stopped" "info"]
     else
      [DemoEvent.toastShown "Error Stopping Demo" "error"])

/-- Modelled from the spec: the Kafka demo backend answers POST /stop with
an ok response regardless of the current running state; the in-repository
API notes document the stop endpoint as idempotent, responding
running false with a message in both cases. The backend itself is an
external service, so only this documented contract is modelled. -/
def stopEndpointOk (_running : Bool) : Bool := true

end DemoGallery

namespace DemoGallery

/-- C3: after validation the pending selection never exceeds 10 entries and
never contains a non-image file; selecting 11 files leaves the selection
empty with one too-many-files notification; selecting 3 images mixed with
2 non-images yields exactly the 3 images plus exactly one
invalid-file-type notification. -/
theorem selection_validated_invariant :
    (∀ (prev : SelectionState) (files : List JSFile),
        (handleFileSelection prev files).1.selectedFiles.length ≤ 10
      ∧ (handleFileSelection prev files).1.selectedFiles.all
          (fun f => isImageType f.type) = true)
  ∧ handleFileSelection ⟨false, []⟩
        [pngFile "f1", pngFile "f2", pngFile "f3", pngFile "f4", pngFile "f5",
         pngFile "f6", pngFile "f7", pngFile "f8", pngFile "f9", pngFile "f10",
         pngFile "f11"]
      = (⟨false, []⟩,
         [⟨"Too Many Files", "Please select up to 10 images at a time.",
           "warning", 4000⟩])
  ∧ (handleFileSelection ⟨false, []⟩
        [pngFile "a", pngFile "b", pngFile "c", txtFile "d", txtFile "e"]).1
      = ⟨true, [pngFile "a", pngFile "b", pngFile "c"]⟩
  ∧ ((handleFileSelection ⟨false, []⟩
        [pngFile "a", pngFile "b", pngFile "c", txtFile "d", txtFile "e"]).2.filter
          (fun t => t.title == "Invalid File Type")).length = 1 := by
  refine ⟨?_, by decide, by decide, by decide⟩
  intro prev files
  simp only [handleFileSelection]
  split
  · simp
  · split
    · simp
    · split
      · constructor
        · have h1 : (files.filter (fun f => isImageType f.type)).length ≤
              files.length := List.length_filter_le _ _
          simp only []
          omega
        · simp only [List.all_eq_true]
          intro f hf
          exact (List.mem_filter.mp hf).2
      · simp

/-- Counting helper: the number of uploadResults entries with a given
status equals the number of responses classified with that status, when the
batch has one response per selected file. -/
theorem zip_results_count (fs : List JSFile) (rs : List UploadResponse)
    (s : String) (h : rs.length = fs.length) :
    (((fs.zip rs).map (fun p => uploadResultFor p.1 p.2)).filter
        (fun u => u.status == s)).length
      = (rs.filter (fun r => respStatus r == s)).length := by
  induction fs generalizing rs with
  | nil =>
    cases rs with
    | nil => rfl
    | cons r rs => simp at h
  | cons f fs ih =>
    cases rs with
    | nil => simp at h
    | cons r rs =>
      simp only [List.zip_cons_cons, List.map_cons, List.filter_cons]
      have hst : (uploadResultFor f r).status = respStatus r := rfl
      rw [hst]
      by_cases hc : (respStatus r == s) = true
      · simp only [hc, if_true, List.length_cons]
        have := ih rs (by simpa using h)
        omega
      · simp only [eq_false_of_ne_true hc, if_false]
        exact ih rs (by simpa using h)

/-- C2 counterexample: a non-empty selection whose single upload fails
produces no summary notification at all (the code only creates the summary
toast when at least one file succeeded), refuting the claim that every
non-empty batch ends with exactly one summary notification. -/
theorem upload_no_summary_on_total_failure :
    ((onFileUpload ⟨true, [pngFile "a"]⟩ [UploadResponse.err "Network Error"]).1.filter
        (fun t => t.title == "Upload Results")).length = 0 := by
  decide

/-- C2 (amended): for every non-empty selection with one response per file,
the upload creates exactly one summary notification when at least one file
succeeded and none otherwise, plus exactly one notification per flagged
file, and the pending selection is cleared regardless of the outcome mix.
The summary toast is the only toast with status success or warning; the
per-flagged toasts are exactly the toasts with status error. -/
theorem flagged_toasts_filter_sw (l : List UploadResult) :
    ((l.map (fun r => (⟨"Questionable Content - " ++ r.file,
        r.message.getD "", "error", 5000⟩ : Toast))).filter
      (fun t => t.status == "success" || t.status == "warning")) = [] := by
  induction l with
  | nil => rfl
  | cons a l ih => simp [ih]

theorem flagged_toasts_filter_err (l : List UploadResult) :
    (((l.map (fun r => (⟨"Questionable Content - " ++ r.file,
        r.message.getD "", "error", 5000⟩ : Toast))).filter
      (fun t => t.status == "error"))).length = l.length := by
  induction l with
  | nil => rfl
  | cons a l ih => simpa using ih

theorem summary_toast_filter_sw (desc : String) (c : Prop) [Decidable c] :
    (([⟨"Upload Results", desc, if c then "success" else "warning",
        6000⟩] : List Toast).filter
      (fun t => t.status == "success" || t.status == "warning")).length = 1 := by
  by_cases h : c <;> simp [h]

theorem summary_toast_filter_err (desc : String) (c : Prop) [Decidable c] :
    (([⟨"Upload Results", desc, if c then "success" else "warning",
        6000⟩] : List Toast).filter
      (fun t => t.status == "error")).length = 0 := by
  by_cases h : c <;> simp [h]

theorem upload_summary_amended (sel : SelectionState)
    (rs : List UploadResponse)
    (hne : sel.selectedFiles ≠ [])
    (hlen : rs.length = sel.selectedFiles.length) :
    ((onFileUpload sel rs).1.filter
        (fun t => t.status == "success" || t.status == "warning")).length
      = (if 0 < (rs.filter (fun r => respStatus r == "success")).length
         then 1 else 0)
  ∧ ((onFileUpload sel rs).1.filter (fun t => t.status == "error")).length
      = (rs.filter (fun r => respStatus r == "questionable")).length
  ∧ (onFileUpload sel rs).2 = ⟨false, []⟩ := by
  have h0 : ¬ sel.selectedFiles.length = 0 :=
    fun h => hne (List.length_eq_zero.mp h)
  have hcS := zip_results_count sel.selectedFiles rs "success" hlen
  have hcQ := zip_results_count sel.selectedFiles rs "questionable" hlen
  refine ⟨?_, ?_, ?_⟩
  · simp only [onFileUpload, if_neg h0, List.filter_append, List.length_append,
      flagged_toasts_filter_sw, List.length_nil, hcS]
    by_cases hs : 0 < (rs.filter (fun r => respStatus r == "success")).length
    · simp [hs, summary_toast_filter_sw]
    · simp [hs]
  · simp only [onFileUpload, if_neg h0, List.filter_append, List.length_append,
      flagged_toasts_filter_err, hcS, hcQ]
    by_cases hs : 0 < (rs.filter (fun r => respStatus r == "success")).length
    · simp [hs, summary_toast_filter_err]
    · simp [hs]
  · simp only [onFileUpload, if_neg h0]

/-- C2 witness: uploading 3 files where the 2nd fails yields one summary
toast (with warning status, since not all succeeded), no flagged toasts,
and a cleared selection. -/
theorem upload_summary_amended_witness :
    ([pngFile "a", pngFile "b", pngFile "c"] : List JSFile) ≠ []
  ∧ ([UploadResponse.ok "uploaded", UploadResponse.err "Network Error",
      UploadResponse.ok "uploaded"] : List UploadResponse).length
      = ([pngFile "a", pngFile "b", pngFile "c"] : List JSFile).length
  ∧ (((onFileUpload ⟨true, [pngFile "a", pngFile "b", pngFile "c"]⟩
        [UploadResponse.ok "uploaded", UploadResponse.err "Network Error",
         UploadResponse.ok "uploaded"]).1.filter
          (fun t => t.status == "success" || t.status == "warning")).length
        = (if 0 < (([UploadResponse.ok "uploaded",
                     UploadResponse.err "Network Error",
                     UploadResponse.ok "uploaded"] : List UploadResponse).filter
                      (fun r => respStatus r == "success")).length
           then 1 else 0)
      ∧ ((onFileUpload ⟨true, [pngFile "a", pngFile "b", pngFile "c"]⟩
            [UploadResponse.ok "uploaded", UploadResponse.err "Network Error",
             UploadResponse.ok "uploaded"]).1.filter
              (fun t => t.status == "error")).length
          = (([UploadResponse.ok "uploaded", UploadResponse.err "Network Error",
               UploadResponse.ok "uploaded"] : List UploadResponse).filter
                (fun r => respStatus r == "questionable")).length
      ∧ (onFileUpload ⟨true, [pngFile "a", pngFile "b", pngFile "c"]⟩
            [UploadResponse.ok "uploaded", UploadResponse.err "Network Error",
             UploadResponse.ok "uploaded"]).2 = ⟨false, []⟩) :=
  ⟨by decide, by decide,
   upload_summary_amended ⟨true, [pngFile "a", pngFile "b", pngFile "c"]⟩
     [UploadResponse.ok "uploaded", UploadResponse.err "Network Error",
      UploadResponse.ok "uploaded"] (by decide) (by decide)⟩

/-- C4 counterexample: a delete request that completes with HTTP status 404
is rejected by the HTTP client and handled in the catch block, which shows
an error notification, not the warning notification the claim promises for
every completed non-success status. -/
theorem delete_completed_404_not_warning :
    onFileDelete 404 = ⟨false, "error"⟩
  ∧ (onFileDelete 404).toastStatus ≠ "warning" := by
  decide

/-- C4 (amended): the delete operation treats exactly the statuses 200, 201
and 204 as success (refresh plus success notification); any other 2xx
status produces a warning notification; a completed non-2xx status is
rejected by the HTTP client and produces an error notification. No status
outside 200/201/204 ever reports success or triggers a refresh. -/
theorem delete_status_classification :
    (∀ status : Nat,
        ((onFileDelete status).toastStatus = "success" ↔
          (status = 200 ∨ status = 201 ∨ status = 204))
      ∧ ((onFileDelete status).refresh = true ↔
          (status = 200 ∨ status = 201 ∨ status = 204))
      ∧ ((onFileDelete status).toastStatus = "warning" ↔
          (200 ≤ status ∧ status < 300 ∧
            ¬(status = 200 ∨ status = 201 ∨ status = 204)))
      ∧ ((onFileDelete status).toastStatus = "error" ↔
          ¬(200 ≤ status ∧ status < 300)))
  ∧ onFileDelete 207 = ⟨false, "warning"⟩
  ∧ onFileDelete 204 = ⟨true, "success"⟩ := by
  refine ⟨?_, by decide, by decide⟩
  intro status
  simp only [onFileDelete, axiosResolves]
  by_cases h2xx : (200 ≤ status ∧ status < 300)
  · rw [if_pos (by simp [h2xx])]
    by_cases hs : (status = 200 ∨ status = 201 ∨ status = 204)
    · rw [if_pos hs]
      refine ⟨by simp [hs], by simp [hs], by simp [hs], by simp [h2xx]⟩
    · rw [if_neg hs]
      refine ⟨by simp [hs], by simp [hs], by simp [h2xx, hs], by simp [h2xx]⟩
  · rw [if_neg (by simpa using h2xx)]
    have hs : ¬(status = 200 ∨ status = 201 ∨ status = 204) := by omega
    refine ⟨by simp [hs], by simp [hs], by simp [h2xx, hs], by simp [h2xx]⟩

/-- C6: on a failed image-list fetch, the operation either answers with the
fixed two-item placeholder list or re-throws the very error it caught, and
it answers with the placeholder list exactly when the build environment is
dev and the error is of the network class. -/
theorem getimages_dev_fallback :
    (∀ (environment : String) (e : JSError),
        (getImagesOnError environment e = Except.ok mockImages ∨
         getImagesOnError environment e = Except.error e)
      ∧ (getImagesOnError environment e = Except.ok mockImages ↔
          (environment = "dev" ∧ isNetworkError e = true)))
  ∧ mockImages.length = 2 := by
  refine ⟨?_, by decide⟩
  intro environment e
  simp only [getImagesOnError]
  by_cases h : (environment == "dev" && isNetworkError e) = true
  · rw [if_pos h]
    simp only [Bool.and_eq_true, beq_iff_eq] at h
    simp [h]
  · rw [if_neg h]
    simp only [Bool.and_eq_true, beq_iff_eq] at h
    simp [h]

/-- C9: the selection produced by a file-selection event depends only on the
files of that event (not on the previous pending selection), and every file
in the new selection comes from the event: the previous selection is never
merged in. -/
theorem selection_replacement_policy :
    (∀ (prev prev' : SelectionState) (files : List JSFile),
        handleFileSelection prev files = handleFileSelection prev' files)
  ∧ (∀ (prev : SelectionState) (files : List JSFile),
        (handleFileSelection prev files).1.selectedFiles ⊆ files) := by
  constructor
  · intro prev prev' files
    rfl
  · intro prev files
    simp only [handleFileSelection]
    split
    · simp
    · split
      · simp
      · split
        · exact fun x hx => (List.mem_filter.mp hx).1
        · simp

/-- C1 (divergence witness): a poll response with fault latency 250
arriving while a submission is in flight (isLoading true) and the local
fault profile holds an edited latency of 999 makes fetchStatus overwrite
the local edit with the response fault - the stale-closure guard reads the
frozen initial isLoading - while the specified handler (fetchStatusSpec)
leaves the edit unchanged. -/
theorem kafka_poll_overwrites_inflight_edit :
    (fetchStatus ⟨none, true, ⟨999, 0, 0, 0⟩, 0⟩
        (some ⟨true, some "run-1", 0, 0, 0, ⟨250, 0, 0, 0⟩, none⟩)).faultConfig
      = ⟨250, 0, 0, 0⟩
  ∧ (⟨250, 0, 0, 0⟩ : FaultConfig) ≠ ⟨999, 0, 0, 0⟩
  ∧ (fetchStatusSpec ⟨none, true, ⟨999, 0, 0, 0⟩, 0⟩
        (some ⟨true, some "run-1", 0, 0, 0, ⟨250, 0, 0, 0⟩, none⟩)).faultConfig
      = ⟨999, 0, 0, 0⟩
  ∧ (⟨none, true, ⟨999, 0, 0, 0⟩, 0⟩ : KafkaState).isLoading = true := by
  refine ⟨rfl, ?_, rfl, rfl⟩
  intro h
  have := congrArg FaultConfig.latency_ms h
  simp at this

/-- C5: sending a message serializes the whole history plus the new user
turn into exactly one more outbound message than there were turns, the
submitted body is model-size-messages, an image part reduces to exactly
the image_base64 and mime_type pair with every other field dropped, and a
part without image data reduces to its text field alone. -/
theorem chat_send_serialization (msgs : List ChatMsg)
    (p model size : String) (resp : SendResponse)
    (t : Option String) (b : String) (mt : Option String)
    (extra : List (String × String))
    (hp : jsTrimEmpty p = false) (hb : b ≠ "") :
    (handleSendMessage ⟨msgs, p, false⟩ model size resp).2.2
        = some ⟨model, size, (msgs ++ [userTurn p]).map serializeMessage⟩
  ∧ ((msgs ++ [userTurn p]).map serializeMessage).length = msgs.length + 1
  ∧ serializePart ⟨t, some b, mt, extra⟩ = WirePart.image b mt
  ∧ serializePart ⟨t, none, mt, extra⟩ = WirePart.text t := by
  refine ⟨?_, by simp, ?_, rfl⟩
  · simp only [handleSendMessage]
    rw [if_neg (by simp [hp])]
    cases resp with
    | fetchError m => rfl
    | notOk status detail => rfl
    | ok ib mt' =>
        cases ib with
        | none => rfl
        | some b' =>
            by_cases hb' : (b' == "") = true
            · simp only [hb', if_true]
            · simp only [Bool.not_eq_true] at hb'
              simp only [hb', Bool.false_eq_true, if_false]
  · simp only [serializePart]
    rw [if_neg (by simpa using hb)]

/-- C5 witness: the two-turn history (user text, assistant image with extra
fields) plus the new user turn serializes to exactly 3 messages, and the
assistant image part keeps only image_base64 and mime_type. -/
theorem chat_send_serialization_witness :
    jsTrimEmpty "make it rainy" = false
  ∧ ("imageA" : String) ≠ ""
  ∧ ((handleSendMessage ⟨chatHistExample, "make it rainy", false⟩
        "gemini-3-pro-image-preview" "1024x1024"
        (SendResponse.ok (some "imageB") (some "image/png"))).2.2
      = some ⟨"gemini-3-pro-image-preview", "1024x1024",
          (chatHistExample ++ [userTurn "make it rainy"]).map serializeMessage⟩
    ∧ ((chatHistExample ++ [userTurn "make it rainy"]).map serializeMessage).length
        = chatHistExample.length + 1
    ∧ serializePart ⟨some "leftover", some "imageA", some "image/png",
        [("seed", "42")]⟩ = WirePart.image "imageA" (some "image/png")
    ∧ serializePart ⟨some "leftover", none, some "image/png",
        [("seed", "42")]⟩ = WirePart.text (some "leftover")) :=
  ⟨by decide, by decide,
   chat_send_serialization chatHistExample "make it rainy"
     "gemini-3-pro-image-preview" "1024x1024"
     (SendResponse.ok (some "imageB") (some "image/png"))
     (some "leftover") "imageA" (some "image/png") [("seed", "42")]
     (by decide) (by decide)⟩

/-- C7: the stop handler submits no request body; against the documented
idempotent stop endpoint, stopping while status already shows running
false follows the success path - request, immediate status re-poll, then
the success toast, in that order - and shows no error toast. -/
theorem stop_idempotent_and_repolls :
    handleStop (stopEndpointOk false)
      = [DemoEvent.stopRequest none, DemoEvent.statusPoll,
         DemoEvent.toastShown "Demo Stopped" "info"]
  ∧ (∀ running : Bool,
      handleStop (stopEndpointOk running) = handleStop (stopEndpointOk false))
  ∧ (∀ respOk : Bool,
      (handleStop respOk).head? = some (DemoEvent.stopRequest none))
  ∧ ((handleStop (stopEndpointOk false)).filter
      (fun ev => ev == DemoEvent.toastShown "Error Stopping Demo" "error")) = [] := by
  decide

/-- C8: in both AI clients a 2xx response without a truthy image_base64
field is an error, never a silent no-op: the single-shot generate path
throws the no-image-data error, and the chat path surfaces the Generation
Failed toast. -/
theorem missing_image_base64_is_error :
    (∀ (status : Nat) (detail mt : Option String),
        generateImageResponse true status detail none mt
          = Except.error "No image data found in response"
      ∧ generateImageResponse true status detail (some "") mt
          = Except.error "No image data found in response")
  ∧ (∀ (msgs : List ChatMsg) (model size : String) (mt : Option String),
        (handleSendMessage ⟨msgs, "p", false⟩ model size
            (SendResponse.ok none mt)).2.1
          = [genFailedToast "No image data received from API"]
      ∧ (handleSendMessage ⟨msgs, "p", false⟩ model size
            (SendResponse.ok (some "") mt)).2.1
          = [genFailedToast "No image data received from API"]) := by
  constructor
  · intro status detail mt
    exact ⟨rfl, rfl⟩
  · intro msgs model size mt
    exact ⟨rfl, rfl⟩

/-- C10: when a send fails after the user turn was appended (rejected
fetch, non-ok response, or missing image data), the history is not rolled
back - the new user turn stays appended, the prompt stays cleared, and the
resulting history differs from the pre-send history. -/
theorem chat_error_keeps_user_turn (st : ChatState) (model size : String)
    (resp : SendResponse) (hp : jsTrimEmpty st.prompt = false)
    (hf : isFailureResponse resp = true) :
    (handleSendMessage st model size resp).1.messages
        = st.messages ++ [userTurn st.prompt]
  ∧ (handleSendMessage st model size resp).1.prompt = ""
  ∧ (handleSendMessage st model size resp).1.messages ≠ st.messages := by
  have hmain : (handleSendMessage st model size resp).1
      = ⟨st.messages ++ [userTurn st.prompt], "", false⟩ := by
    simp only [handleSendMessage]
    rw [if_neg (by simp [hp])]
    cases resp with
    | fetchError m => rfl
    | notOk status detail => rfl
    | ok ib mt =>
        cases ib with
        | none => rfl
        | some b =>
            have hb : (b == "") = true := by
              simpa [isFailureResponse] using hf
            simp only [hb, if_true]
  rw [hmain]
  refine ⟨rfl, rfl, ?_⟩
  intro h
  have := congrArg List.length h
  simp at this

/-- C10 witness: a failed send (HTTP 500) from an empty history with a
non-blank prompt leaves the user turn appended and the prompt cleared. -/
theorem chat_error_keeps_user_turn_witness :
    jsTrimEmpty "draw a bug" = false
  ∧ isFailureResponse (SendResponse.notOk 500 none) = true
  ∧ ((handleSendMessage ⟨[], "draw a bug", false⟩ "gemini-2.5-flash-image"
        "1024x1024" (SendResponse.notOk 500 none)).1.messages
      = [] ++ [userTurn "draw a bug"]
    ∧ (handleSendMessage ⟨[], "draw a bug", false⟩ "gemini-2.5-flash-image"
        "1024x1024" (SendResponse.notOk 500 none)).1.prompt = ""
    ∧ (handleSendMessage ⟨[], "draw a bug", false⟩ "gemini-2.5-flash-image"
        "1024x1024" (SendResponse.notOk 500 none)).1.messages ≠ []) :=
  ⟨by decide, by decide,
   chat_error_keeps_user_turn ⟨[], "draw a bug", false⟩
     "gemini-2.5-flash-image" "1024x1024" (SendResponse.notOk 500 none)
     (by decide) (by decide)⟩

end DemoGallery
